import Mathlib

/-!
# Verification of the yys-automation decision-and-scheduling engine

Shallow embedding of the automation engine of the repository
(`src/modules/core.py`, `src/modules/yuhun_module.py`,
`src/modules/baigui_module.py`, `src/modules/automation_engine.py`,
and the legacy `src/auto_click.py`), together with theorems settling
the specification claims about it.

Times are modelled as exact rationals, screens as oracles assigning to
each template name the best correlation score and match centre that
`cv2.matchTemplate` would report, and the random draws of the code
(jitter offsets, wait durations, tap-delivery success) as explicit
parameters constrained to the intervals the code draws them from.
-/

/-- One entry of the `templates` table of `config/settings.json`
(`ImageProcessor.template_configs`): both fields are optional in the
JSON, the code supplies defaults `0.8` and `0` via `.get`. -/
structure TemplateCfg where
  thresholdOpt : Option ℚ
  priorityOpt : Option ℤ
deriving DecidableEq, Repr

/-- The `template_configs` mapping of `ImageProcessor`. -/
def TemplateConfigs : Type := String → Option TemplateCfg

/-- `self.template_configs.get(name, {}).get("threshold", 0.8)`
(`core.py`, `ImageProcessor.find_template`). -/
def getThreshold (cfg : TemplateConfigs) (n : String) : ℚ :=
  ((cfg n).bind (·.thresholdOpt)).getD (4/5)

/-- `self.template_configs.get(name, {}).get("priority", 0)`
(`core.py`, `ImageProcessor.detect_all_buttons`). -/
def getPriority (cfg : TemplateConfigs) (n : String) : ℤ :=
  ((cfg n).bind (·.priorityOpt)).getD 0

/-- A captured frame, abstracted as the outcome of single-scale template
matching: for each template name, `none` when the template asset cannot
be loaded, otherwise the best score `max_val` and the centre position
that `find_template` computes from `max_loc` and the template size. -/
structure Screen where
  best : String → Option (ℚ × ℤ × ℤ)

/-- `ImageProcessor.find_template` (`core.py` lines 295-315): returns
the match centre when the best score reaches the configured threshold,
`none` when the template is missing or the score is below threshold. -/
def find_template (cfg : TemplateConfigs) (s : Screen) (n : String) : Option (ℤ × ℤ) :=
  match s.best n with
  | none => none
  | some (score, x, y) => if getThreshold cfg n ≤ score then some (x, y) else none

/-- One element of the list built by `ImageProcessor.detect_all_buttons`:
the dict `{"name": ..., "position": ..., "score": ..., "priority": ...}`. -/
structure Candidate where
  name : String
  position : ℤ × ℤ
  score : ℚ
  priority : ℤ
deriving DecidableEq, Repr

/-- The candidate list of `detect_all_buttons` before the final sort:
one entry per requested template that `find_template` accepts, in
catalog (argument) order. -/
def detectUnsorted (cfg : TemplateConfigs) (s : Screen) (names : List String) : List Candidate :=
  names.filterMap fun n =>
    match s.best n with
    | none => none
    | some (score, x, y) =>
      if getThreshold cfg n ≤ score then
        some ⟨n, (x, y), score, getPriority cfg n⟩
      else none

/-- Stable insertion used to model Python's stable `list.sort` with
`key=lambda x: x["priority"]`: a candidate is inserted before the first
element whose priority is not smaller, hence after nothing of equal
priority that was already in the list and before everything of equal
priority that comes later in catalog order. -/
def insertCand (c : Candidate) : List Candidate → List Candidate
  | [] => [c]
  | d :: ds => if c.priority ≤ d.priority then c :: d :: ds else d :: insertCand c ds

/-- Stable sort by ascending priority (`results.sort(key=lambda x: x["priority"])`
in `core.py` line 340). -/
def sortCands : List Candidate → List Candidate
  | [] => []
  | c :: cs => insertCand c (sortCands cs)

/-- `ImageProcessor.detect_all_buttons` (`core.py` lines 317-341). -/
def detect_all_buttons (cfg : TemplateConfigs) (s : Screen) (names : List String) : List Candidate :=
  sortCands (detectUnsorted cfg s names)

theorem mem_insertCand {x c : Candidate} {l : List Candidate} :
    x ∈ insertCand c l ↔ x = c ∨ x ∈ l := by
  induction l with
  | nil => simp [insertCand]
  | cons d ds ih =>
    by_cases h : c.priority ≤ d.priority
    · simp [insertCand, h]
    · simp [insertCand, h, ih]
      tauto

theorem insertCand_pairwise {c : Candidate} {l : List Candidate}
    (hl : l.Pairwise fun a b => a.priority ≤ b.priority) :
    (insertCand c l).Pairwise fun a b => a.priority ≤ b.priority := by
  induction l with
  | nil => simp [insertCand]
  | cons d ds ih =>
    rcases List.pairwise_cons.1 hl with ⟨hd, hds⟩
    by_cases h : c.priority ≤ d.priority
    · simp only [insertCand, if_pos h]
      refine List.pairwise_cons.2 ⟨?_, hl⟩
      intro a ha
      rcases List.mem_cons.1 ha with rfl | ha
      · exact h
      · exact le_trans h (hd a ha)
    · simp only [insertCand, if_neg h]
      refine List.pairwise_cons.2 ⟨?_, ih hds⟩
      intro a ha
      rcases mem_insertCand.1 ha with rfl | ha
      · exact le_of_not_le h
      · exact hd a ha

theorem sortCands_pairwise (l : List Candidate) :
    (sortCands l).Pairwise fun a b => a.priority ≤ b.priority := by
  induction l with
  | nil => simp [sortCands]
  | cons c cs ih => exact insertCand_pairwise ih

theorem filter_insertCand (c : Candidate) (l : List Candidate) (k : ℤ) :
    (insertCand c l).filter (fun d => d.priority = k) =
      if c.priority = k then c :: l.filter (fun d => d.priority = k)
      else l.filter (fun d => d.priority = k) := by
  induction l with
  | nil => by_cases hc : c.priority = k <;> simp [insertCand, hc]
  | cons d ds ih =>
    by_cases h : c.priority ≤ d.priority
    · simp only [insertCand, if_pos h, List.filter_cons]
      by_cases hc : c.priority = k <;> by_cases hd : d.priority = k <;>
        simp [hc, hd]
    · simp only [insertCand, if_neg h, List.filter_cons, ih]
      by_cases hd : d.priority = k
      · have hck : ¬ c.priority = k := by
          intro hc; exact h (le_of_eq (hc.trans hd.symm))
        simp [hd, hck]
      · by_cases hc : c.priority = k <;> simp [hd, hc]

theorem sortCands_filter (l : List Candidate) (k : ℤ) :
    (sortCands l).filter (fun d => d.priority = k) =
      l.filter (fun d => d.priority = k) := by
  induction l with
  | nil => rfl
  | cons c cs ih =>
    simp only [sortCands, filter_insertCand, List.filter_cons, ih]
    by_cases hc : c.priority = k <;> simp [hc]

/-- Success of `InputController.click` (`core.py` lines 351-369): fails
when no device is selected, otherwise reports whether the `adb shell
input tap` subprocess succeeded (`tapDelivered`). -/
def InputController.click_succeeds (deviceId : Option String) (tapDelivered : Bool) : Bool :=
  deviceId.isSome && tapDelivered

/-- The tap coordinates produced by `InputController.random_click`
(`core.py` lines 371-390) for jitter draws `ox`, `oy`: the code adds
two independently drawn integer offsets to the matched centre. -/
def InputController.random_click_target (x y ox oy : ℤ) : ℤ × ℤ :=
  (x + ox, y + oy)

/-- The fixed `offset_range` of `InputController.random_click`. -/
def offsetRange : ℤ := 10

/-- The range of each per-axis draw `random.randint(-offset_range, offset_range)`
in `InputController.random_click`. -/
def inOffsetRange (o : ℤ) : Prop :=
  -offsetRange ≤ o ∧ o ≤ offsetRange

instance (o : ℤ) : Decidable (inOffsetRange o) := by
  unfold inOffsetRange; infer_instance

/-- Modelled from the spec: "jitter is applied as a radius-and-angle
offset (polar jitter) around the matched center" — a jitter draw is
polar with maximal radius `bound` exactly when its Euclidean norm is
bounded by `bound`. -/
def polarBounded (dx dy bound : ℤ) : Prop :=
  dx ^ 2 + dy ^ 2 ≤ bound ^ 2

instance (dx dy bound : ℤ) : Decidable (polarBounded dx dy bound) := by
  unfold polarBounded; infer_instance

/-- Python `int()` truncation toward zero, used by the legacy
`AutoClicker.random_click` on `offset * cos(angle)` / `offset * sin(angle)`. -/
def truncQ (q : ℚ) : ℤ :=
  if 0 ≤ q then ⌊q⌋ else ⌈q⌉

/-- The jitter offset pair of the legacy `AutoClicker.random_click`
(`auto_click.py` lines 802-829): a radius `r` drawn from
`randint(click_min, click_max)` and a direction given by the
cosine/sine pair `(c, s)` of the drawn angle. -/
def AutoClicker.polar_offset (r c s : ℚ) : ℤ × ℤ :=
  (truncQ (r * c), truncQ (r * s))

/-- `AutomationModule.click_button` (`automation_engine.py` lines 54-74):
on a successful `random_click` it records the button as
`last_button_clicked` and returns `True`; on failure it returns `False`
and leaves the record untouched. Returns `(result, last_button_clicked)`. -/
def AutomationModule.click_button (last : Option String) (clickResult : Bool) (n : String) :
    Bool × Option String :=
  if clickResult then (true, some n) else (false, last)

/-- `DeviceManager.should_switch_device` (`core.py` lines 218-223). -/
def DeviceManager.should_switch_device (numDevices : ℕ) (now lastSwitch interval : ℚ) : Bool :=
  if numDevices ≤ 1 then false else decide (interval ≤ now - lastSwitch)

/-- The mutable per-session flags of `YuhunModule` / `AutomationModule`
that the yuhun tick reads and writes. -/
structure YuhunState where
  check_notupo_after_button10 : Bool
  last_button10_click_time : ℚ
  last_button_clicked : Option String
deriving DecidableEq, Repr

/-- The environment of one iteration of the `while` loop in
`YuhunModule.run_once`: the signal states, the successive clock
readings (`time.time()` at the budget check, the gate-window check,
the button7 overtime check and the post-click timestamp), the random
wait draw for button7, the captured frame (or capture failure), the
device-switch decision and the delivery outcome of the single
`click_button` call the iteration can make. -/
structure TickEnv where
  stopSet : Bool
  pauseSet : Bool
  startTime : ℚ
  maxRunTime : ℚ
  nowBudget : ℚ
  shouldSwitch : Bool
  screen : Option Screen
  nowGate : ℚ
  nowB7 : ℚ
  b7Wait : ℚ
  nowClick : ℚ
  clickOk : Bool

/-- How one loop iteration of `YuhunModule.run_once` ends: `ret b`
models `return b` from `run_once`, `cont` models `continue` or falling
through the trailing `time.sleep(0.2)` to the next iteration. -/
inductive StepKind where
  | ret (b : Bool)
  | cont
deriving DecidableEq, Repr

/-- Observable outcome of one iteration: how it ended, the taps it
dispatched through `click_button` (name and coordinates), whether it
set the session's pause event, the new flag state and whether it
performed a device switch. -/
structure IterOut where
  result : StepKind
  taps : List (String × ℤ × ℤ)
  pauseSignal : Bool
  state : YuhunState
  switched : Bool
deriving DecidableEq, Repr

/-- The `if`/`elif`/`else` dispatch chain of `YuhunModule.run_once`
(lines 118-143) on the top-priority candidate `b`, reached after the
button5 pre-step. -/
def yuhunDispatch (env : TickEnv) (st : YuhunState) (sw : Bool) (b : Candidate) : IterOut :=
  if b.name = "button10" then
    let r := AutomationModule.click_button st.last_button_clicked env.clickOk b.name
    if r.1 then
      ⟨.ret true, [(b.name, b.position.1, b.position.2)], false,
        ⟨true, env.nowClick, r.2⟩, sw⟩
    else
      ⟨.cont, [(b.name, b.position.1, b.position.2)], false,
        { st with last_button_clicked := r.2 }, sw⟩
  else if b.name = "button7" then
    if env.maxRunTime < env.nowB7 - env.startTime + env.b7Wait then
      ⟨.ret false, [], false, st, sw⟩
    else
      let r := AutomationModule.click_button st.last_button_clicked env.clickOk b.name
      if r.1 then
        ⟨.ret true, [(b.name, b.position.1, b.position.2)], false,
          { st with last_button_clicked := r.2 }, sw⟩
      else
        ⟨.cont, [(b.name, b.position.1, b.position.2)], false,
          { st with last_button_clicked := r.2 }, sw⟩
  else
    let r := AutomationModule.click_button st.last_button_clicked env.clickOk b.name
    if r.1 then
      ⟨.ret true, [(b.name, b.position.1, b.position.2)], false,
        { st with last_button_clicked := r.2 }, sw⟩
    else
      ⟨.cont, [(b.name, b.position.1, b.position.2)], false,
        { st with last_button_clicked := r.2 }, sw⟩

/-- The normal-matching phase of a `YuhunModule.run_once` iteration
(lines 99-143): detect all buttons, apply the button5/button4
sequencing pre-step, then dispatch on the top candidate; idle when
nothing matched. -/
def yuhunNormal (cfg : TemplateConfigs) (templateSets : List String) (env : TickEnv)
    (st : YuhunState) (s : Screen) (sw : Bool) : IterOut :=
  match detect_all_buttons cfg s templateSets with
  | [] => ⟨.cont, [], false, st, sw⟩
  | b :: _ =>
    if b.name = "button5" ∧ st.last_button_clicked ≠ some "button4" then
      match find_template cfg s "button4" with
      | some p4 =>
        let r := AutomationModule.click_button st.last_button_clicked env.clickOk "button4"
        ⟨.cont, [("button4", p4.1, p4.2)], false,
          { st with last_button_clicked := r.2 }, sw⟩
      | none => yuhunDispatch env st sw b
    else yuhunDispatch env st sw b

/-- One iteration of the `while not stop_event.is_set()` loop of
`YuhunModule.run_once` (`yuhun_module.py` lines 56-147): loop-condition
check, per-tick budget check, pause check, device-switch check, frame
capture, terminal ("lose") check, gate ("notupo") check, then normal
matching and dispatch. -/
def yuhunIter (cfg : TemplateConfigs) (templateSets : List String) (env : TickEnv)
    (st : YuhunState) : IterOut :=
  if env.stopSet then ⟨.ret false, [], false, st, false⟩
  else if env.maxRunTime < env.nowBudget - env.startTime then
    ⟨.ret false, [], false, st, false⟩
  else if env.pauseSet then ⟨.ret false, [], false, st, false⟩
  else
    let sw := env.shouldSwitch
    match env.screen with
    | none => ⟨.cont, [], false, st, sw⟩
    | some s =>
      match find_template cfg s "lose" with
      | some _ => ⟨.ret false, [], true, st, sw⟩
      | none =>
        if st.check_notupo_after_button10 then
          match find_template cfg s "notupo" with
          | some _ => ⟨.ret false, [], true, st, sw⟩
          | none =>
            if 1 < env.nowGate - st.last_button10_click_time then
              yuhunNormal cfg templateSets env
                { st with check_notupo_after_button10 := false } s sw
            else ⟨.cont, [], false, st, sw⟩
        else yuhunNormal cfg templateSets env st s sw

/-- Environment of one `BaiguiModule.run_once` call: signals, clock
readings, the captured frame, the second frame captured inside the
button2 branch, the random draws (button2 wait, idle probability draw,
random-area point) and the delivery outcomes of the possible taps. -/
structure BaiguiEnv where
  pauseSet : Bool
  shouldSwitch : Bool
  screen : Option Screen
  startTime : ℚ
  maxRunTime : ℚ
  nowBudget : ℚ
  clickOk : Bool
  b2Wait : ℚ
  nowB2 : ℚ
  screen2 : Option Screen
  clickOk3 : Bool
  nowIdle : ℚ
  idleDraw : ℚ
  areaX : ℤ
  areaY : ℤ
  areaClickOk : Bool

/-- Observable outcome of one `BaiguiModule.run_once` call: its return
value, the dispatched taps, whether it set the session's pause event,
and the new `consecutive_errors` and `last_button_clicked` values. -/
structure BaiguiOut where
  result : Bool
  taps : List (String × ℤ × ℤ)
  pauseSignal : Bool
  errors : ℕ
  last : Option String
  switched : Bool
deriving DecidableEq, Repr

/-- The button dispatch chain of `BaiguiModule.run_once` (lines 86-123)
on the top-priority candidate, plus the trailing idle fall-through:
a failed tap falls through to the final sleep and returns `False`. -/
def baiguiDispatch (cfg : TemplateConfigs) (env : BaiguiEnv) (last : Option String)
    (sw : Bool) (b : Candidate) : BaiguiOut :=
  if b.name = "button2" then
    let r := AutomationModule.click_button last env.clickOk b.name
    if r.1 then
      if env.maxRunTime < env.nowB2 - env.startTime + env.b2Wait then
        ⟨true, [(b.name, b.position.1, b.position.2)], false, 0, r.2, sw⟩
      else
        match env.screen2 with
        | none => ⟨true, [(b.name, b.position.1, b.position.2)], false, 0, r.2, sw⟩
        | some s2 =>
          match find_template cfg s2 "button3" with
          | none => ⟨true, [(b.name, b.position.1, b.position.2)], false, 0, r.2, sw⟩
          | some p3 =>
            let r3 := AutomationModule.click_button r.2 env.clickOk3 "button3"
            ⟨true, [(b.name, b.position.1, b.position.2), ("button3", p3.1, p3.2)],
              false, 0, r3.2, sw⟩
    else ⟨false, [(b.name, b.position.1, b.position.2)], false, 0, r.2, sw⟩
  else
    let r := AutomationModule.click_button last env.clickOk b.name
    if r.1 then ⟨true, [(b.name, b.position.1, b.position.2)], false, 0, r.2, sw⟩
    else ⟨false, [(b.name, b.position.1, b.position.2)], false, 0, r.2, sw⟩

/-- One `BaiguiModule.run_once` call (`baigui_module.py` lines 49-150):
pause check, device-switch check, frame capture with the
consecutive-failure counter, per-tick budget check, detection,
dispatch, and the low-probability exploratory tap on idle frames. -/
def baiguiRun (cfg : TemplateConfigs) (templateSets : List String) (env : BaiguiEnv)
    (errors : ℕ) (last : Option String) : BaiguiOut :=
  if env.pauseSet then ⟨false, [], false, errors, last, false⟩
  else
    let sw := env.shouldSwitch
    match env.screen with
    | none =>
      if 5 < errors + 1 then ⟨false, [], true, errors + 1, last, sw⟩
      else ⟨false, [], false, errors + 1, last, sw⟩
    | some s =>
      if env.maxRunTime < env.nowBudget - env.startTime then
        ⟨false, [], false, 0, last, sw⟩
      else
        match detect_all_buttons cfg s templateSets with
        | [] =>
          if env.nowIdle - env.startTime < env.maxRunTime * (4/5) then
            if env.idleDraw < 1/5 then
              if env.areaClickOk then
                ⟨true, [("random_area", env.areaX, env.areaY)], false, 0, last, sw⟩
              else ⟨false, [("random_area", env.areaX, env.areaY)], false, 0, last, sw⟩
            else ⟨false, [], false, 0, last, sw⟩
          else ⟨false, [], false, 0, last, sw⟩
        | b :: _ => baiguiDispatch cfg env last sw b

/-- The per-session mutable data that a baigui session owns:
`consecutive_errors`, `last_button_clicked` and its pause flag. -/
structure SessionSt where
  errors : ℕ
  last : Option String
  paused : Bool
deriving DecidableEq, Repr

/-- One supervisor step of a single baigui session: run the module once
with the session's own pause flag and fold the outcome back into the
session's state. -/
def baiguiSessionStep (cfg : TemplateConfigs) (templateSets : List String)
    (env : BaiguiEnv) (st : SessionSt) : SessionSt :=
  let out := baiguiRun cfg templateSets { env with pauseSet := st.paused } st.errors st.last
  ⟨out.errors, out.last, st.paused || out.pauseSignal⟩

/-- Advancing session `i` of a fleet of baigui sessions: only the `i`-th
session's state is rewritten, every other session keeps its state. -/
def baiguiFleetStep (cfg : TemplateConfigs) (templateSets : List String)
    (envs : ℕ → BaiguiEnv) (fleet : ℕ → SessionSt) (i : ℕ) : ℕ → SessionSt :=
  Function.update fleet i (baiguiSessionStep cfg templateSets (envs i) (fleet i))

/-- The `while not self.stop_event.is_set()` loop of `DeviceThread.run`
(`automation_engine.py` lines 136-168): at the top of every iteration
the current time is compared against `end_time`; once reached, the
shared stop event is set and the loop exits. `work` lists the wall-time
cost of each iteration body (pause sleep or `run_once` call) until the
stop event is set externally; the result is the exit time and whether
this session itself set the shared stop signal at its deadline. -/
def superviseLoop (deadline : ℚ) : ℚ → List ℚ → ℚ × Bool
  | now, [] => (now, false)
  | now, d :: ds =>
    if deadline ≤ now then (now, true)
    else superviseLoop deadline (now + d) ds

/-- A two-control catalog with equal priorities, used to exercise the
sort tie-break of `detect_all_buttons`. -/
def cfgTie : TemplateConfigs := fun n =>
  if n = "a" then some ⟨none, some 1⟩
  else if n = "b" then some ⟨none, some 1⟩
  else none

/-- A frame where control "a" (earlier in catalog order) scores lower
than control "b"; both clear the default threshold. -/
def screenTie : Screen :=
  ⟨fun n =>
    if n = "a" then some (17/20, 10, 10)
    else if n = "b" then some (19/20, 20, 20)
    else none⟩

/-- Catalog used by the concrete yuhun/baigui scenarios: terminal and
gate controls with threshold 1/2, the sequenced pair button5/button4
and the special buttons with distinct priorities. -/
def cfgW : TemplateConfigs := fun n =>
  if n = "lose" then some ⟨some (1/2), none⟩
  else if n = "notupo" then some ⟨some (1/2), none⟩
  else if n = "button5" then some ⟨none, some 1⟩
  else if n = "button4" then some ⟨none, some 2⟩
  else if n = "button10" then some ⟨none, some 3⟩
  else if n = "button7" then some ⟨none, some 4⟩
  else none

/-- A frame matching both the terminal control "lose" and the normal
control "button10". -/
def screenLose : Screen :=
  ⟨fun n =>
    if n = "lose" then some (9/10, 50, 60)
    else if n = "button10" then some (9/10, 100, 110)
    else none⟩

/-- A frame matching both the gate control "notupo" and the normal
control "button10". -/
def screenGateHit : Screen :=
  ⟨fun n =>
    if n = "notupo" then some (9/10, 30, 40)
    else if n = "button10" then some (9/10, 100, 110)
    else none⟩

/-- A frame matching only the normal control "button10". -/
def screenGateMiss : Screen :=
  ⟨fun n => if n = "button10" then some (9/10, 100, 110) else none⟩

/-- A frame matching the sequenced control "button5" and its
prerequisite "button4". -/
def screenSeq : Screen :=
  ⟨fun n =>
    if n = "button5" then some (9/10, 55, 55)
    else if n = "button4" then some (9/10, 44, 45)
    else none⟩

/-- A frame matching only "button7". -/
def screenB7 : Screen :=
  ⟨fun n => if n = "button7" then some (9/10, 70, 75) else none⟩

/-- A frame matching nothing. -/
def screenEmpty : Screen := ⟨fun _ => none⟩

/-- Session state with the notupo gate armed at time 1. -/
def stGate : YuhunState := ⟨true, 1, none⟩

/-- Session state with the gate disarmed and no recorded click. -/
def stIdle : YuhunState := ⟨false, 0, none⟩

def envLose : TickEnv :=
  ⟨false, false, 0, 5, 1, true, some screenLose, 3/2, 2, 1, 2, true⟩

def envGateHit : TickEnv :=
  ⟨false, false, 0, 5, 1, true, some screenGateHit, 3/2, 2, 1, 2, true⟩

def envGateMiss : TickEnv :=
  ⟨false, false, 0, 5, 1, true, some screenGateMiss, 3/2, 2, 1, 2, true⟩

def envSeq : TickEnv :=
  ⟨false, false, 0, 5, 1, false, some screenSeq, 3/2, 2, 1, 2, true⟩

/-- A tick whose first clock reading already exceeds the 5-second
budget. -/
def envBudget : TickEnv :=
  ⟨false, false, 0, 5, 6, false, none, 0, 0, 0, 0, true⟩

/-- A tick inside the budget whose drawn button7 wait would overrun it:
4 seconds elapsed plus a 2-second wait against a 5-second ceiling. -/
def envB7 : TickEnv :=
  ⟨false, false, 0, 5, 1, false, some screenB7, 3/2, 4, 2, 2, true⟩

/-- A tick during the gate-wait window in which the device manager
reports that the 30-second switch interval has elapsed. -/
def envSwitchC6 : TickEnv :=
  ⟨false, false, 0, 5, 1, DeviceManager.should_switch_device 2 100 0 30,
    some screenEmpty, 1/2, 0, 0, 0, true⟩

/-- A baigui call whose frame capture failed. -/
def benvFail : BaiguiEnv :=
  ⟨false, false, none, 0, 5, 1, true, 1, 1, none, true, 1, 1, 0, 0, true⟩

/-- A baigui call with a successful (empty) frame. -/
def benvOk : BaiguiEnv :=
  ⟨false, false, some screenEmpty, 0, 5, 1, true, 1, 1, none, true, 5, 1, 0, 0, true⟩

/-- A baigui call with a successful frame but the budget already
exceeded at the post-capture checkpoint. -/
def benvBudget : BaiguiEnv :=
  ⟨false, false, some screenEmpty, 0, 5, 6, true, 1, 1, none, true, 5, 1, 0, 0, true⟩

theorem truncQ_sq_le (q : ℚ) : (truncQ q : ℚ) ^ 2 ≤ q ^ 2 := by
  unfold truncQ
  by_cases h : 0 ≤ q
  · rw [if_pos h]
    have h1 : ((⌊q⌋ : ℤ) : ℚ) ≤ q := Int.floor_le q
    have h2 : (0 : ℚ) ≤ ((⌊q⌋ : ℤ) : ℚ) := by exact_mod_cast Int.floor_nonneg.2 h
    exact sq_le_sq' (by linarith) h1
  · rw [if_neg h]
    have hq : q ≤ 0 := le_of_not_le h
    have h1 : q ≤ ((⌈q⌉ : ℤ) : ℚ) := Int.le_ceil q
    have h2' : ⌈q⌉ ≤ (0 : ℤ) := Int.ceil_le.2 (by exact_mod_cast hq)
    have h2 : ((⌈q⌉ : ℤ) : ℚ) ≤ 0 := by exact_mod_cast h2'
    have : ((⌈q⌉ : ℤ) : ℚ) ^ 2 ≤ (-q) ^ 2 := sq_le_sq' (by linarith) (by linarith)
    simpa [neg_sq] using this

/-- Claim C3: the candidate list returned by `detect_all_buttons` is
claimed to be sorted ascending by priority with ties broken by
descending confidence score. Refuted: on a catalog of two controls of
equal priority where the one earlier in catalog order has the lower
score, the returned list keeps catalog order, so the equal-priority
pair is not in descending-score order. -/
theorem detect_tie_order_counterexample :
    ¬ ((detect_all_buttons cfgTie screenTie ["a", "b"]).Pairwise fun c d =>
        c.priority < d.priority ∨ (c.priority = d.priority ∧ d.score ≤ c.score)) := by
  have h1 : (4 : ℚ)/5 ≤ 17/20 := by norm_num
  have h2 : (4 : ℚ)/5 ≤ 19/20 := by norm_num
  have hd : detect_all_buttons cfgTie screenTie ["a", "b"] =
      [⟨"a", (10, 10), 17/20, 1⟩, ⟨"b", (20, 20), 19/20, 1⟩] := by
    simp [detect_all_buttons, detectUnsorted, getThreshold, getPriority,
      cfgTie, screenTie, sortCands, insertCand, h1, h2]
  rw [hd]
  norm_num [List.pairwise_cons]

/-- Claim C3 (amended): the returned list is sorted ascending by
priority, and ties between equal priorities are broken by catalog order
(the stable sort leaves the per-priority subsequences exactly as the
catalog enumeration produced them); confidence scores play no role in
the ordering. Deterministic by construction. -/
theorem detect_sorted_amended (cfg : TemplateConfigs) (s : Screen) (names : List String) :
    ((detect_all_buttons cfg s names).Pairwise fun c d => c.priority ≤ d.priority) ∧
    (∀ k : ℤ, (detect_all_buttons cfg s names).filter (fun c => c.priority = k) =
      (detectUnsorted cfg s names).filter (fun c => c.priority = k)) :=
  ⟨sortCands_pairwise _, fun k => sortCands_filter _ k⟩

/-- Claim C7: the tap-position jitter is claimed to be a polar
(radius-and-angle) offset for every dispatched tap. Refuted: the
modular `InputController.random_click` draws the two axis offsets
independently from `[-10, 10]`, and the reachable draw `(10, 10)`
violates the polar bound of radius 10. -/
theorem polar_jitter_counterexample :
    inOffsetRange 10 ∧ inOffsetRange 10 ∧
    InputController.random_click_target 100 200 10 10 = (110, 210) ∧
    ¬ polarBounded 10 10 offsetRange := by
  decide

/-- Claim C7 (amended): only the legacy `AutoClicker.random_click`
applies polar jitter — its offset always satisfies the polar bound of
the maximal drawn radius `clickMax`; the modular
`InputController.random_click` applies independent per-axis uniform
offsets, which only satisfy the weaker box bound `2 · offsetRange²`. -/
theorem jitter_amended (r c s clickMax : ℚ) (ox oy : ℤ)
    (hr : 0 ≤ r) (hm : r ≤ clickMax) (hcs : c ^ 2 + s ^ 2 ≤ 1)
    (hox : inOffsetRange ox) (hoy : inOffsetRange oy) :
    (((AutoClicker.polar_offset r c s).1 : ℚ) ^ 2 +
      ((AutoClicker.polar_offset r c s).2 : ℚ) ^ 2 ≤ clickMax ^ 2) ∧
    ox ^ 2 + oy ^ 2 ≤ 2 * offsetRange ^ 2 := by
  constructor
  · have t1 := truncQ_sq_le (r * c)
    have t2 := truncQ_sq_le (r * s)
    simp only [AutoClicker.polar_offset]
    calc (truncQ (r * c) : ℚ) ^ 2 + (truncQ (r * s) : ℚ) ^ 2
        ≤ (r * c) ^ 2 + (r * s) ^ 2 := add_le_add t1 t2
      _ = r ^ 2 * (c ^ 2 + s ^ 2) := by ring
      _ ≤ r ^ 2 * 1 := mul_le_mul_of_nonneg_left hcs (sq_nonneg r)
      _ = r ^ 2 := mul_one _
      _ ≤ clickMax ^ 2 := by nlinarith
  · rcases hox with ⟨hox1, hox2⟩
    rcases hoy with ⟨hoy1, hoy2⟩
    have h1 : ox ^ 2 ≤ offsetRange ^ 2 := sq_le_sq' hox1 hox2
    have h2 : oy ^ 2 ≤ offsetRange ^ 2 := sq_le_sq' hoy1 hoy2
    linarith

theorem jitter_amended_witness :
    (((AutoClicker.polar_offset 5 1 0).1 : ℚ) ^ 2 +
      ((AutoClicker.polar_offset 5 1 0).2 : ℚ) ^ 2 ≤ (10 : ℚ) ^ 2) ∧
    (10 : ℤ) ^ 2 + (10 : ℤ) ^ 2 ≤ 2 * offsetRange ^ 2 :=
  jitter_amended 5 1 0 10 10 10 (by norm_num) (by norm_num) (by norm_num)
    (by decide) (by decide)

/-- Claim C10: when the input controller reports tap-delivery failure,
`click_button` returns `False` and `last_button_clicked` keeps its
previous value; `last_button_clicked` becomes the given button name
exactly when the tap succeeds. -/
theorem click_button_failure (dev : Option String) (delivered : Bool)
    (last : Option String) (n : String) :
    (InputController.click_succeeds dev delivered = false →
      AutomationModule.click_button last (InputController.click_succeeds dev delivered) n
        = (false, last)) ∧
    (InputController.click_succeeds dev delivered = true →
      AutomationModule.click_button last (InputController.click_succeeds dev delivered) n
        = (true, some n)) := by
  constructor <;> intro h <;> simp [AutomationModule.click_button, h]

theorem click_button_failure_witness :
    (AutomationModule.click_button (some "button4")
      (InputController.click_succeeds (some "127.0.0.1:5555") false) "button7"
        = (false, some "button4")) ∧
    (AutomationModule.click_button (some "button4")
      (InputController.click_succeeds (some "127.0.0.1:5555") true) "button7"
        = (true, some "button7")) :=
  ⟨(click_button_failure (some "127.0.0.1:5555") false (some "button4") "button7").1
      (by decide),
    (click_button_failure (some "127.0.0.1:5555") true (some "button4") "button7").2
      (by decide)⟩

theorem superviseLoop_bound (deadline B : ℚ) :
    ∀ (work : List ℚ) (now : ℚ), (∀ d ∈ work, 0 ≤ d ∧ d ≤ B) →
      now ≤ deadline + B →
      (superviseLoop deadline now work).2 = true →
      deadline ≤ (superviseLoop deadline now work).1 ∧
        (superviseLoop deadline now work).1 ≤ deadline + B := by
  intro work
  induction work with
  | nil => intro now _ _ h; simp [superviseLoop] at h
  | cons d ds ih =>
    intro now hw hnow
    by_cases h : deadline ≤ now
    · simp only [superviseLoop, if_pos h]
      exact fun _ => ⟨h, hnow⟩
    · simp only [superviseLoop, if_neg h]
      have hd := hw d (List.mem_cons_self d ds)
      have hlt : now < deadline := lt_of_not_le h
      have hstep : now + d ≤ deadline + B := by linarith [hd.2]
      exact ih (now + d) (fun e he => hw e (List.mem_cons_of_mem d he)) hstep

/-- Claim C9: the supervisor compares the clock against
`deadline = start + D` at the top of every iteration; once reached it
sets the shared stop signal and exits, so when the session stops at its
own deadline the exit time lies in `[start + D, start + D + B]` for any
trace of iteration costs bounded by the tick-budget ceiling `B` —
within one tick budget of the deadline, never later. -/
theorem supervisor_deadline (start D B : ℚ) (work : List ℚ)
    (hD : 0 ≤ D) (hB : 0 ≤ B) (hwork : ∀ d ∈ work, 0 ≤ d ∧ d ≤ B)
    (hstop : (superviseLoop (start + D) start work).2 = true) :
    start + D ≤ (superviseLoop (start + D) start work).1 ∧
      (superviseLoop (start + D) start work).1 ≤ start + D + B :=
  superviseLoop_bound (start + D) B work start hwork (by linarith) hstop

theorem yuhunDispatch_switched (env : TickEnv) (st : YuhunState) (sw : Bool) (b : Candidate) :
    (yuhunDispatch env st sw b).switched = sw := by
  unfold yuhunDispatch
  dsimp only
  split_ifs <;> rfl

theorem yuhunNormal_switched (cfg : TemplateConfigs) (ts : List String) (env : TickEnv)
    (st : YuhunState) (s : Screen) (sw : Bool) :
    (yuhunNormal cfg ts env st s sw).switched = sw := by
  unfold yuhunNormal
  rcases hd : detect_all_buttons cfg s ts with _ | ⟨b, rest⟩
  · simp only [hd]
  · simp only [hd]
    split_ifs with h
    · rcases hb : find_template cfg s "button4" with _ | p4 <;>
        simp only [hb, yuhunDispatch_switched]
    · exact yuhunDispatch_switched env st sw b

/-- Claim C1: the terminal-control check ("lose") runs before the gate
check and before any candidate detection, every tick: whenever the
frame matches "lose" — whatever else it matches and whatever the gate
state — the tick sets the pause signal, dispatches zero taps, leaves
the session flags unchanged and ends. -/
theorem yuhun_terminal_precedence (cfg : TemplateConfigs) (ts : List String)
    (env : TickEnv) (st : YuhunState) (s : Screen) (p : ℤ × ℤ)
    (hstop : env.stopSet = false)
    (hbud : ¬ env.maxRunTime < env.nowBudget - env.startTime)
    (hpause : env.pauseSet = false)
    (hscreen : env.screen = some s)
    (hlose : find_template cfg s "lose" = some p) :
    yuhunIter cfg ts env st = ⟨.ret false, [], true, st, env.shouldSwitch⟩ := by
  unfold yuhunIter
  rw [if_neg (by simp [hstop]), if_neg hbud, if_neg (by simp [hpause])]
  simp only [hscreen, hlose]

theorem yuhun_terminal_precedence_witness :
    yuhunIter cfgW ["button10"] envLose stGate = ⟨.ret false, [], true, stGate, true⟩ := by
  rw [yuhun_terminal_precedence cfgW ["button10"] envLose stGate screenLose (50, 60)
    rfl (by norm_num [envLose]) rfl rfl
    (by simp [find_template, cfgW, screenLose, getThreshold]; norm_num)]
  rfl

/-- Claim C2: while the notupo gate is armed and within its 1-second
validity window, the tick dispatches no tap whatever the frame shows;
if the gate control "notupo" is found the pause signal is set and the
tick ends, and if not the tick re-ticks (short sleep and `continue`)
without evaluating or acting on any normal candidate. -/
theorem yuhun_gate_exclusive (cfg : TemplateConfigs) (ts : List String)
    (env : TickEnv) (st : YuhunState) (s : Screen)
    (hstop : env.stopSet = false)
    (hbud : ¬ env.maxRunTime < env.nowBudget - env.startTime)
    (hpause : env.pauseSet = false)
    (hscreen : env.screen = some s)
    (hlose : find_template cfg s "lose" = none)
    (hgate : st.check_notupo_after_button10 = true)
    (hwin : ¬ 1 < env.nowGate - st.last_button10_click_time) :
    (yuhunIter cfg ts env st).taps = [] ∧
    (∀ p, find_template cfg s "notupo" = some p →
      yuhunIter cfg ts env st = ⟨.ret false, [], true, st, env.shouldSwitch⟩) ∧
    (find_template cfg s "notupo" = none →
      yuhunIter cfg ts env st = ⟨.cont, [], false, st, env.shouldSwitch⟩) := by
  have hsome : ∀ p, find_template cfg s "notupo" = some p →
      yuhunIter cfg ts env st = ⟨.ret false, [], true, st, env.shouldSwitch⟩ := by
    intro p hn
    unfold yuhunIter
    rw [if_neg (by simp [hstop]), if_neg hbud, if_neg (by simp [hpause])]
    simp only [hscreen, hlose, hgate, hn, if_true]
  have hnone : find_template cfg s "notupo" = none →
      yuhunIter cfg ts env st = ⟨.cont, [], false, st, env.shouldSwitch⟩ := by
    intro hn
    unfold yuhunIter
    rw [if_neg (by simp [hstop]), if_neg hbud, if_neg (by simp [hpause])]
    simp only [hscreen, hlose, hgate, hn, if_true, if_neg hwin]
  refine ⟨?_, hsome, hnone⟩
  rcases hn : find_template cfg s "notupo" with _ | p
  · rw [hnone hn]
  · rw [hsome p hn]

theorem yuhun_gate_exclusive_witness :
    (yuhunIter cfgW ["button10"] envGateHit stGate = ⟨.ret false, [], true, stGate, true⟩) ∧
    (yuhunIter cfgW ["button10"] envGateMiss stGate = ⟨.cont, [], false, stGate, true⟩) := by
  constructor
  · rw [(yuhun_gate_exclusive cfgW ["button10"] envGateHit stGate screenGateHit
      rfl (by norm_num [envGateHit]) rfl rfl
      (by simp [find_template, cfgW, screenGateHit])
      rfl (by norm_num [envGateHit, stGate])).2.1 (30, 40)
      (by simp [find_template, cfgW, screenGateHit, getThreshold]; norm_num)]
    rfl
  · rw [(yuhun_gate_exclusive cfgW ["button10"] envGateMiss stGate screenGateMiss
      rfl (by norm_num [envGateMiss]) rfl rfl
      (by simp [find_template, cfgW, screenGateMiss])
      rfl (by norm_num [envGateMiss, stGate])).2.2
      (by simp [find_template, cfgW, screenGateMiss])]
    rfl

/-- Claim C4: at every budget checkpoint where the tick's 5-second
ceiling is found exceeded, the remainder of the tick is abandoned with
no pending action dispatched: the top-of-iteration check of the yuhun
tick, the pre-wait check of its button7 branch (the pending button7
tap is dropped), and the post-capture check of the baigui tick. -/
theorem tick_budget_abandon (cfg : TemplateConfigs) (ts : List String) :
    (∀ env st, env.stopSet = false →
      env.maxRunTime < env.nowBudget - env.startTime →
      yuhunIter cfg ts env st = ⟨.ret false, [], false, st, false⟩) ∧
    (∀ env st s b rest, env.stopSet = false →
      ¬ env.maxRunTime < env.nowBudget - env.startTime →
      env.pauseSet = false →
      env.screen = some s →
      find_template cfg s "lose" = none →
      st.check_notupo_after_button10 = false →
      detect_all_buttons cfg s ts = b :: rest →
      b.name = "button7" →
      env.maxRunTime < env.nowB7 - env.startTime + env.b7Wait →
      yuhunIter cfg ts env st = ⟨.ret false, [], false, st, env.shouldSwitch⟩) ∧
    (∀ env errors last s, env.pauseSet = false →
      env.screen = some s →
      env.maxRunTime < env.nowBudget - env.startTime →
      baiguiRun cfg ts env errors last = ⟨false, [], false, 0, last, env.shouldSwitch⟩) := by
  refine ⟨?_, ?_, ?_⟩
  · intro env st hstop hbud
    unfold yuhunIter
    rw [if_neg (by simp [hstop]), if_pos hbud]
  · intro env st s b rest hstop hbud hpause hscreen hlose hgate hdet hb7 hover
    unfold yuhunIter
    rw [if_neg (by simp [hstop]), if_neg hbud, if_neg (by simp [hpause])]
    simp only [hscreen, hlose, hgate, Bool.false_eq_true, if_false]
    unfold yuhunNormal
    simp only [hdet]
    rw [if_neg (by rintro ⟨h5, -⟩; rw [hb7] at h5; exact absurd h5 (by decide))]
    unfold yuhunDispatch
    rw [if_neg (by rw [hb7]; decide), if_pos hb7, if_pos hover]
  · intro env errors last s hpause hscreen hbud
    unfold baiguiRun
    simp only [hpause, Bool.false_eq_true, if_false, hscreen]
    rw [if_pos hbud]

theorem tick_budget_abandon_witness :
    (yuhunIter cfgW [] envBudget stIdle = ⟨.ret false, [], false, stIdle, false⟩) ∧
    (yuhunIter cfgW ["button7"] envB7 stIdle = ⟨.ret false, [], false, stIdle, false⟩) ∧
    (baiguiRun cfgW [] benvBudget 3 none = ⟨false, [], false, 0, none, false⟩) := by
  have h45 : (4 : ℚ)/5 ≤ 9/10 := by norm_num
  refine ⟨?_, ?_, ?_⟩
  · exact (tick_budget_abandon cfgW []).1 envBudget stIdle rfl (by norm_num [envBudget])
  · rw [(tick_budget_abandon cfgW ["button7"]).2.1 envB7 stIdle screenB7
      ⟨"button7", (70, 75), 9/10, 4⟩ [] rfl (by norm_num [envB7]) rfl rfl
      (by simp [find_template, cfgW, screenB7]) rfl
      (by simp [detect_all_buttons, detectUnsorted, getThreshold, getPriority,
        cfgW, screenB7, sortCands, insertCand, h45])
      rfl (by norm_num [envB7])]
    rfl
  · rw [(tick_budget_abandon cfgW []).2.2 benvBudget 3 none screenEmpty rfl rfl
      (by norm_num [benvBudget])]
    rfl

/-- Claim C5: when the top-priority candidate is the sequenced control
button5 but the last activated control is not its prerequisite button4,
and the frame contains button4, the tick taps button4 — and only
button4 — and continues, skipping button5 for this tick. -/
theorem yuhun_sequencing (cfg : TemplateConfigs) (ts : List String)
    (env : TickEnv) (st : YuhunState) (s : Screen) (p4 : ℤ × ℤ)
    (b : Candidate) (rest : List Candidate)
    (hstop : env.stopSet = false)
    (hbud : ¬ env.maxRunTime < env.nowBudget - env.startTime)
    (hpause : env.pauseSet = false)
    (hscreen : env.screen = some s)
    (hlose : find_template cfg s "lose" = none)
    (hgate : st.check_notupo_after_button10 = false)
    (hdet : detect_all_buttons cfg s ts = b :: rest)
    (hb5 : b.name = "button5")
    (hlast : st.last_button_clicked ≠ some "button4")
    (hb4 : find_template cfg s "button4" = some p4) :
    yuhunIter cfg ts env st = ⟨.cont, [("button4", p4.1, p4.2)], false,
      { st with last_button_clicked :=
          (AutomationModule.click_button st.last_button_clicked env.clickOk "button4").2 },
      env.shouldSwitch⟩ := by
  unfold yuhunIter
  rw [if_neg (by simp [hstop]), if_neg hbud, if_neg (by simp [hpause])]
  simp only [hscreen, hlose, hgate, Bool.false_eq_true, if_false]
  unfold yuhunNormal
  simp only [hdet]
  rw [if_pos ⟨hb5, hlast⟩]
  simp only [hb4]
  rw [hgate]

theorem yuhun_sequencing_witness :
    yuhunIter cfgW ["button5", "button4"] envSeq stIdle =
      ⟨.cont, [("button4", 44, 45)], false, ⟨false, 0, some "button4"⟩, false⟩ := by
  have h45 : (4 : ℚ)/5 ≤ 9/10 := by norm_num
  rw [yuhun_sequencing cfgW ["button5", "button4"] envSeq stIdle screenSeq (44, 45)
    ⟨"button5", (55, 55), 9/10, 1⟩ [⟨"button4", (44, 45), 9/10, 2⟩]
    rfl (by norm_num [envSeq]) rfl rfl
    (by simp [find_template, cfgW, screenSeq]) rfl
    (by simp [detect_all_buttons, detectUnsorted, getThreshold, getPriority,
      cfgW, screenSeq, sortCands, insertCand, h45])
    rfl (by decide)
    (by simp [find_template, cfgW, screenSeq, getThreshold, h45])]
  rfl

/-- Claim C6: a device rebind is claimed never to occur while the
engine is in the gate-wait phase. Refuted: the switch check runs at the
top of every iteration before the gate is consulted, so in a tick whose
state has the gate armed and still within its 1-second window, with the
device manager reporting the switch interval elapsed, the tick switches
device while busy-polling the gate. -/
theorem gate_switch_counterexample :
    stGate.check_notupo_after_button10 = true ∧
    envSwitchC6.nowGate - stGate.last_button10_click_time ≤ 1 ∧
    DeviceManager.should_switch_device 2 100 0 30 = true ∧
    (yuhunIter cfgW [] envSwitchC6 stGate).switched = true ∧
    (yuhunIter cfgW [] envSwitchC6 stGate).result = .cont := by
  have hsw : DeviceManager.should_switch_device 2 100 0 30 = true := by
    norm_num [DeviceManager.should_switch_device]
  have hl : find_template cfgW screenEmpty "lose" = none := by
    simp [find_template, screenEmpty]
  have hn : find_template cfgW screenEmpty "notupo" = none := by
    simp [find_template, screenEmpty]
  have hb : ¬ (envSwitchC6.maxRunTime < envSwitchC6.nowBudget - envSwitchC6.startTime) := by
    norm_num [envSwitchC6]
  have hw : ¬ (1 : ℚ) < envSwitchC6.nowGate - stGate.last_button10_click_time := by
    norm_num [envSwitchC6, stGate]
  have he : yuhunIter cfgW [] envSwitchC6 stGate =
      ⟨.cont, [], false, stGate, envSwitchC6.shouldSwitch⟩ := by
    unfold yuhunIter
    rw [if_neg (by simp [envSwitchC6]), if_neg hb, if_neg (by simp [envSwitchC6])]
    have hscr : envSwitchC6.screen = some screenEmpty := rfl
    have hg : stGate.check_notupo_after_button10 = true := rfl
    simp only [hscr, hl, hg, hn, if_true, if_neg hw]
  refine ⟨rfl, by norm_num [envSwitchC6, stGate], hsw, ?_, ?_⟩
  · rw [he]
    exact hsw
  · rw [he]

/-- Claim C6 (amended): the device-switch check of the yuhun tick runs
unconditionally at the top of every iteration, before frame capture and
before the gate is consulted: whenever the tick proceeds past the
stop/budget/pause checks, a rebind happens exactly when the device
manager reports the switch interval elapsed — regardless of whether the
gate is armed and within its validity window. -/
theorem device_switch_amended (cfg : TemplateConfigs) (ts : List String)
    (env : TickEnv) (st : YuhunState)
    (hstop : env.stopSet = false)
    (hbud : ¬ env.maxRunTime < env.nowBudget - env.startTime)
    (hpause : env.pauseSet = false) :
    (yuhunIter cfg ts env st).switched = env.shouldSwitch := by
  unfold yuhunIter
  rw [if_neg (by simp [hstop]), if_neg hbud, if_neg (by simp [hpause])]
  rcases hs : env.screen with _ | s
  · simp only [hs]
  · simp only [hs]
    rcases hl : find_template cfg s "lose" with _ | p
    · simp only [hl]
      cases hg : st.check_notupo_after_button10
      · simp only [hg, Bool.false_eq_true, if_false]
        exact yuhunNormal_switched cfg ts env st s env.shouldSwitch
      · simp only [hg, if_true]
        rcases hn : find_template cfg s "notupo" with _ | q
        · simp only [hn]
          split_ifs with hw
          · exact yuhunNormal_switched cfg ts env _ s env.shouldSwitch
          · rfl
        · simp only [hn]
    · simp only [hl]

theorem device_switch_amended_witness :
    (yuhunIter cfgW [] envSwitchC6 stGate).switched = envSwitchC6.shouldSwitch :=
  device_switch_amended cfgW [] envSwitchC6 stGate rfl (by norm_num [envSwitchC6]) rfl

theorem baiguiDispatch_errors (cfg : TemplateConfigs) (env : BaiguiEnv)
    (last : Option String) (sw : Bool) (b : Candidate) :
    (baiguiDispatch cfg env last sw b).errors = 0 := by
  rcases hs2 : env.screen2 with _ | s2
  · unfold baiguiDispatch
    simp only [hs2]
    split_ifs <;> rfl
  · rcases hf : find_template cfg s2 "button3" with _ | p3 <;>
      (unfold baiguiDispatch; simp only [hs2, hf]; split_ifs <;> rfl)

/-- Claim C8: each frame-capture failure increments the session's
consecutive-failure counter and ends the cycle with no tap; the pause
signal is raised exactly when the counter crosses the ceiling 5; a
successful capture resets the counter to zero; and stepping one session
of a fleet leaves every other session's state untouched. -/
theorem baigui_failure_counter (cfg : TemplateConfigs) (ts : List String) :
    (∀ env errors last, env.pauseSet = false → env.screen = none →
      baiguiRun cfg ts env errors last =
        ⟨false, [], decide (5 < errors + 1), errors + 1, last, env.shouldSwitch⟩) ∧
    (∀ env errors last s, env.pauseSet = false → env.screen = some s →
      (baiguiRun cfg ts env errors last).errors = 0) ∧
    (∀ (envs : ℕ → BaiguiEnv) (fleet : ℕ → SessionSt) (i j : ℕ), j ≠ i →
      baiguiFleetStep cfg ts envs fleet i j = fleet j) := by
  refine ⟨?_, ?_, ?_⟩
  · intro env errors last hp hs
    by_cases h : 5 < errors + 1 <;> simp [baiguiRun, hp, hs, h]
  · intro env errors last s hp hs
    unfold baiguiRun
    simp only [hp, Bool.false_eq_true, if_false, hs]
    by_cases hb : env.maxRunTime < env.nowBudget - env.startTime
    · rw [if_pos hb]
    · rw [if_neg hb]
      rcases hd : detect_all_buttons cfg s ts with _ | ⟨b, rest⟩ <;> simp only [hd]
      · split_ifs <;> rfl
      · exact baiguiDispatch_errors cfg env last env.shouldSwitch b
  · intro envs fleet i j hji
    unfold baiguiFleetStep
    exact Function.update_noteq hji _ _

theorem baigui_failure_counter_witness :
    (baiguiRun cfgW [] benvFail 5 none = ⟨false, [], true, 6, none, false⟩) ∧
    ((baiguiRun cfgW [] benvOk 3 none).errors = 0) ∧
    (baiguiFleetStep cfgW [] (fun _ => benvOk) (fun _ => ⟨2, none, false⟩) 0 1 =
      ⟨2, none, false⟩) := by
  refine ⟨?_, ?_, ?_⟩
  · rw [(baigui_failure_counter cfgW []).1 benvFail 5 none rfl rfl]
    rfl
  · exact (baigui_failure_counter cfgW []).2.1 benvOk 3 none screenEmpty rfl rfl
  · exact (baigui_failure_counter cfgW []).2.2 (fun _ => benvOk)
      (fun _ => ⟨2, none, false⟩) 0 1 (by decide)

theorem supervisor_deadline_witness :
    (0 : ℚ) + 10 ≤ (superviseLoop ((0 : ℚ) + 10) 0 [3, 3, 3, 3, 3]).1 ∧
      (superviseLoop ((0 : ℚ) + 10) 0 [3, 3, 3, 3, 3]).1 ≤ (0 : ℚ) + 10 + 5 :=
  supervisor_deadline 0 10 5 [3, 3, 3, 3, 3] (by norm_num) (by norm_num)
    (by intro d hd; fin_cases hd <;> norm_num) (by norm_num [superviseLoop])
